import Mathlib

/-!
# Verification of `src/desktop/src-tauri/src/utils/app_termination.rs`

A shallow embedding of the macOS application-termination subsystem:

* `setup_termination_handler` — the public registration entry point,
  guarded by a `std::sync::Once` (`INIT`), which on its first call boxes
  the `AppHandle` (`Box::into_raw`), declares and registers an
  Objective-C observer class, creates one observer instance, stores the
  box address in the observer's `appHandlePtr` ivar, stores the observer
  in the process-wide `OBSERVER` slot, and subscribes it to
  `NSApplicationWillTerminateNotification` scoped to the shared
  `NSApplication` instance.
* `will_terminate` — the `extern "C"` callback the OS invokes on
  termination: it logs a debug message, dereferences the ivar back to
  the `AppHandle`, constructs a fresh tokio `Runtime` and, when that
  succeeds, blocks on `cleanup_all_processes(app_handle.clone())`.

Modelling decisions:

* `AppHandle` is opaque and cloneable; we model it by its identity
  (`clone` of a tauri `AppHandle` shares the same underlying app, so a
  clone is the same logical handle).
* The heap of `Box` allocations is an association list from addresses to
  handles, with a ledger `freed` of addresses ever reclaimed; the source
  contains no `Box::from_raw`/drop for the token, so no operation writes
  to that ledger.
* Availability of the native classes (`Class::get`) and of the dynamic
  class declaration is an environment `ObjCEnv` of booleans; a failed
  `unwrap` is a panic, modelled as `Except.error`.
* `std::sync::Once::call_once` linearizes concurrent callers and marks
  completion when the closure returns, so any concurrent schedule of
  calls is modelled by a sequential list of operations (`runOps`).
* The callback produces a trace of events (`Ev`): logging, the start and
  settling of the cleanup future, a normal return to the OS, or an
  unwind.  `rt.block_on` runs the future to completion on the calling
  thread, hence `cleanupSettled` precedes `ret` in the trace; a panic of
  the (external) cleanup future propagates out of `block_on` and, the
  callback being `extern "C"`, does not return normally — the trace ends
  in `unwind`.  The source calls no process-exit (`exit`) anywhere, so
  no trace contains `processExitCall`.
-/

/-- An opaque, cloneable application handle (`tauri::AppHandle`),
modelled by its identity. -/
structure AppHandle where
  id : Nat
  deriving DecidableEq, Repr

/-- Availability of the native primitives the registration path
`unwrap`s: `Class::get("NSObject")`, `ClassDecl::new`,
`Class::get("NSNotificationCenter")`, `Class::get("NSApplication")`,
`Class::get("NSString")`. -/
structure ObjCEnv where
  nsObject : Bool
  classDeclOk : Bool
  nsNotificationCenter : Bool
  nsApplication : Bool
  nsString : Bool
  deriving DecidableEq, Repr

/-- All native prerequisites available. -/
def ObjCEnv.allOk (e : ObjCEnv) : Bool :=
  e.nsObject && e.classDeclOk && e.nsNotificationCenter &&
    e.nsApplication && e.nsString

/-- The `object:` argument of `addObserver`: the shared `NSApplication`
instance, or a nil (global) scope.  The source always passes the shared
application instance. -/
inductive ObjScope
  | sharedApp
  | nilScope
  deriving DecidableEq, Repr

/-- One `addObserver:selector:name:object:` registration performed on
the default `NSNotificationCenter`. -/
structure Subscription where
  observerAddr : Nat
  selector : String
  name : String
  object : ObjScope
  deriving DecidableEq, Repr

/-- Process-wide state of the subsystem: the `INIT : Once` flag, the
`OBSERVER` slot, the heap of live `Box` allocations (address ↦ boxed
`AppHandle`), the ledger of addresses ever freed, an allocator cursor,
the observer-creation counter, the observer's `appHandlePtr` ivar, and
the notification-center subscriptions performed. -/
structure ProcState where
  initDone : Bool
  observer : Option Nat
  heap : List (Nat × AppHandle)
  freed : List Nat
  nextAddr : Nat
  observersCreated : Nat
  ivarAppHandlePtr : Option Nat
  subscriptions : List Subscription
  deriving DecidableEq, Repr

/-- The state at process start: `INIT` not fired, `OBSERVER = None`,
nothing allocated. -/
def initialState : ProcState :=
  { initDone := false
    observer := none
    heap := []
    freed := []
    nextAddr := 0
    observersCreated := 0
    ivarAppHandlePtr := none
    subscriptions := [] }

/-- Embedding of `pub fn setup_termination_handler(app_handle: AppHandle)`.

`INIT.call_once` makes every call after the first return immediately
with no side effects.  The first call: `Box::into_raw(Box::new(h))`
allocates the handle at a fresh address; `Class::get("NSObject")` and
`ClassDecl::new(...)` are `unwrap`ed (panic on failure, `Except.error`);
`msg_send![cls, new]` creates the single observer instance;
`set_ivar("appHandlePtr", app_ptr)` stores the box address;
`OBSERVER = Some(observer)` fills the process-wide slot; the remaining
`Class::get`s are `unwrap`ed; finally
`addObserver:observer selector:applicationWillTerminate:
name:NSApplicationWillTerminateNotification object:app` subscribes the
observer scoped to the shared application instance. -/
def setup_termination_handler (env : ObjCEnv) (h : AppHandle)
    (s : ProcState) : Except String ProcState :=
  if s.initDone then
    .ok s
  else
    let appPtr := s.nextAddr
    let s1 : ProcState :=
      { s with heap := (appPtr, h) :: s.heap, nextAddr := s.nextAddr + 1 }
    if !env.nsObject then
      .error "Class::get(NSObject).unwrap()"
    else if !env.classDeclOk then
      .error "ClassDecl::new(OBBAppTerminationObserver).unwrap()"
    else
      let obsAddr := s1.nextAddr
      let s2 : ProcState :=
        { s1 with
          nextAddr := s1.nextAddr + 1
          observersCreated := s1.observersCreated + 1
          ivarAppHandlePtr := some appPtr
          observer := some obsAddr }
      if !env.nsNotificationCenter then
        .error "Class::get(NSNotificationCenter).unwrap()"
      else if !env.nsApplication then
        .error "Class::get(NSApplication).unwrap()"
      else if !env.nsString then
        .error "Class::get(NSString).unwrap()"
      else
        .ok { s2 with
              subscriptions :=
                [{ observerAddr := obsAddr
                   selector := "applicationWillTerminate:"
                   name := "NSApplicationWillTerminateNotification"
                   object := ObjScope.sharedApp }] ++ s2.subscriptions
              initDone := true }

/-- Look up a heap address among the live `Box` allocations. -/
def heapLookup (heap : List (Nat × AppHandle)) (a : Nat) :
    Option AppHandle :=
  match heap with
  | [] => none
  | (b, h) :: rest => if b = a then some h else heapLookup rest a

/-- The callback's dereference
`let app_ptr = *this.get_ivar("appHandlePtr");
 let app_handle = &*(app_ptr as *const AppHandle)`:
read the ivar and dereference the address. -/
def derefToken (s : ProcState) : Option AppHandle :=
  match s.ivarAppHandlePtr with
  | none => none
  | some a => heapLookup s.heap a

/-- Events observable during one execution of the termination callback. -/
inductive Ev
  | logDebug (msg : String)
  | cleanupStart (h : AppHandle)
  | cleanupSettled (h : AppHandle)
  | processExitCall
  | ret
  | unwind
  deriving DecidableEq, Repr

/-- Embedding of `extern "C" fn will_terminate(this, _cmd, _notification)`.

Logs `"applicationWillTerminate received, running cleanup..."`, reads
the `appHandlePtr` ivar and dereferences it, then
`if let Ok(rt) = Runtime::new()` — on success,
`rt.block_on(cleanup_all_processes(app_handle.clone()))` runs the
cleanup future to completion on the calling thread before the callback
returns; on failure the cleanup is silently skipped and the callback
returns.  `cleanupPanics` is the behaviour of the external cleanup
future: if it panics, the panic propagates out of `block_on` and the
callback unwinds instead of returning (no `catch_unwind`, no failure
logging anywhere).  The function body contains no `exit()` call. -/
def will_terminate (s : ProcState) (rtOk : Bool) (cleanupPanics : Bool) :
    List Ev :=
  Ev.logDebug "applicationWillTerminate received, running cleanup..." ::
    match derefToken s with
    | some h =>
      if rtOk then
        if cleanupPanics then
          [Ev.cleanupStart h, Ev.unwind]
        else
          [Ev.cleanupStart h, Ev.cleanupSettled h, Ev.ret]
      else
        [Ev.ret]
    | none => [Ev.ret]

/-- The handles passed to `cleanup_all_processes`, in order, in a trace. -/
def cleanupStarts (t : List Ev) : List AppHandle :=
  t.filterMap fun e =>
    match e with
    | Ev.cleanupStart h => some h
    | _ => none

/-- The messages logged in a trace. -/
def logMessages (t : List Ev) : List String :=
  t.filterMap fun e =>
    match e with
    | Ev.logDebug m => some m
    | _ => none

/-- Operations the process can perform against this subsystem: a call of
the registration entry point, or the OS firing the termination
notification (with the given runtime-construction and cleanup
behaviours). -/
inductive Op
  | register (h : AppHandle)
  | terminate (rtOk : Bool) (cleanupPanics : Bool)
  deriving DecidableEq, Repr

/-- Run a sequence of operations.  `terminate` only reads the state (the
callback mutates nothing in this subsystem: the runtime it creates is
local and the cleanup collaborator is external). -/
def runOps (env : ObjCEnv) : List Op → ProcState → Except String ProcState
  | [], s => .ok s
  | Op.register h :: ops, s =>
    match setup_termination_handler env h s with
    | .ok s' => runOps env ops s'
    | .error e => .error e
  | Op.terminate _ _ :: ops, s => runOps env ops s

/-- The environment in which every native prerequisite is available
(the normal macOS situation). -/
def envOk : ObjCEnv :=
  { nsObject := true
    classDeclOk := true
    nsNotificationCenter := true
    nsApplication := true
    nsString := true }

/-- Trace of one termination event fired after a first registration call
of `h` from the initial state (empty when that registration panicked). -/
def terminationTrace (env : ObjCEnv) (h : AppHandle) (rtOk : Bool)
    (cleanupPanics : Bool) : List Ev :=
  match setup_termination_handler env h initialState with
  | .ok s => will_terminate s rtOk cleanupPanics
  | .error _ => []

/-- The process state left by the first successful registration call with
handle `h` from `initialState`: the handle boxed at address 0, one observer
(object id 1) stored in the `OBSERVER` slot with its ivar pointing at the
box, and the single `addObserver` subscription performed. -/
def registeredState (h : AppHandle) : ProcState :=
  { initDone := true
    observer := some 1
    heap := [(0, h)]
    freed := []
    nextAddr := 2
    observersCreated := 1
    ivarAppHandlePtr := some 0
    subscriptions :=
      [{ observerAddr := 1
         selector := "applicationWillTerminate:"
         name := "NSApplicationWillTerminateNotification"
         object := ObjScope.sharedApp }] }

/-- With every native prerequisite available, the first registration call
from the initial state succeeds and produces `registeredState h`. -/
theorem setup_initial_ok (env : ObjCEnv) (h : AppHandle)
    (hEnv : env.allOk = true) :
    setup_termination_handler env h initialState =
      .ok (registeredState h) := by
  obtain ⟨o, c, n, a, st⟩ := env
  simp only [ObjCEnv.allOk, Bool.and_eq_true] at hEnv
  obtain ⟨⟨⟨⟨ho, hc⟩, hn⟩, ha⟩, hst⟩ := hEnv
  subst ho hc hn ha hst
  rfl

/-- Once `INIT` has fired, every further registration call returns with the
state unchanged. -/
theorem setup_noop (env : ObjCEnv) (h : AppHandle) (s : ProcState)
    (hs : s.initDone = true) :
    setup_termination_handler env h s = .ok s := by
  simp [setup_termination_handler, hs]

/-- Once `INIT` has fired, any sequence of further operations leaves the
state unchanged (registration calls are no-ops, and the termination callback
mutates nothing in this subsystem). -/
theorem runOps_noop (env : ObjCEnv) (ops : List Op) (s : ProcState)
    (hs : s.initDone = true) :
    runOps env ops s = .ok s := by
  induction ops with
  | nil => rfl
  | cons op ops ih =>
    cases op with
    | register h =>
      simp only [runOps, setup_noop env h s hs]
      exact ih
    | terminate rtOk p => exact ih

/-- The callback dereference after registration recovers the registered
handle. -/
theorem derefToken_registered (h : AppHandle) :
    derefToken (registeredState h) = some h := rfl

/-- C1: for every N ≥ 1, calling `setup_termination_handler` N times performs
full setup exactly once — the first call creates exactly one observer and
stores it in the process-wide `OBSERVER` slot, and every later call returns
with the state unchanged, performing no native subscription side effects.
Concurrent callers are linearized by `INIT.call_once`, so `later` ranges over
every order of the remaining N − 1 calls. -/
theorem setup_once_idempotent (env : ObjCEnv) (hEnv : env.allOk = true)
    (h : AppHandle) (later : List AppHandle) :
    ∃ s₁, setup_termination_handler env h initialState = .ok s₁ ∧
      s₁.observersCreated = 1 ∧ s₁.observer = some 1 ∧
      s₁.subscriptions.length = 1 ∧
      runOps env (later.map Op.register) s₁ = .ok s₁ :=
  ⟨registeredState h, setup_initial_ok env h hEnv, rfl, rfl, rfl,
    runOps_noop env _ _ rfl⟩

/-- Witness for C1: three calls in the all-available environment. -/
theorem setup_once_idempotent_witness :
    envOk.allOk = true ∧
    ∃ s₁, setup_termination_handler envOk ⟨3⟩ initialState = .ok s₁ ∧
      s₁.observersCreated = 1 ∧ s₁.observer = some 1 ∧
      s₁.subscriptions.length = 1 ∧
      runOps envOk ([⟨4⟩, ⟨5⟩].map Op.register) s₁ = .ok s₁ :=
  ⟨rfl, setup_once_idempotent envOk rfl ⟨3⟩ [⟨4⟩, ⟨5⟩]⟩

/-- C2: when the termination callback runs after registration of `h` and the
execution context constructs (`Runtime::new` succeeds),
`cleanup_all_processes` is invoked exactly once, with the registered handle;
and whenever the callback returns to the OS, the trace shows the cleanup
future settled before the return (`rt.block_on` runs it to completion on the
calling thread). -/
theorem callback_cleanup_once_and_blocks (env : ObjCEnv) (h : AppHandle)
    (p : Bool) (hEnv : env.allOk = true) :
    cleanupStarts (terminationTrace env h true p) = [h] ∧
    (Ev.ret ∈ terminationTrace env h true p →
      terminationTrace env h true p =
        [Ev.logDebug "applicationWillTerminate received, running cleanup...",
         Ev.cleanupStart h, Ev.cleanupSettled h, Ev.ret]) := by
  unfold terminationTrace
  rw [setup_initial_ok env h hEnv]
  cases p <;>
    simp [will_terminate, derefToken_registered, cleanupStarts]

/-- Witness for C2: handle 2, non-panicking cleanup. -/
theorem callback_cleanup_once_and_blocks_witness :
    envOk.allOk = true ∧
    (cleanupStarts (terminationTrace envOk ⟨2⟩ true false) = [⟨2⟩] ∧
    (Ev.ret ∈ terminationTrace envOk ⟨2⟩ true false →
      terminationTrace envOk ⟨2⟩ true false =
        [Ev.logDebug "applicationWillTerminate received, running cleanup...",
         Ev.cleanupStart ⟨2⟩, Ev.cleanupSettled ⟨2⟩, Ev.ret])) :=
  ⟨rfl, callback_cleanup_once_and_blocks envOk ⟨2⟩ false rfl⟩

/-- C3: identity round-trip of the handle carrier — the token produced by the
first registration call, read back from the observer's `appHandlePtr` ivar
and dereferenced inside the callback, yields the original handle unchanged. -/
theorem token_identity_roundtrip (env : ObjCEnv) (h : AppHandle)
    (hEnv : env.allOk = true) :
    ∃ s₁, setup_termination_handler env h initialState = .ok s₁ ∧
      derefToken s₁ = some h :=
  ⟨registeredState h, setup_initial_ok env h hEnv, rfl⟩

/-- Witness for C3 at handle 9. -/
theorem token_identity_roundtrip_witness :
    envOk.allOk = true ∧
    ∃ s₁, setup_termination_handler envOk ⟨9⟩ initialState = .ok s₁ ∧
      derefToken s₁ = some ⟨9⟩ :=
  ⟨rfl, token_identity_roundtrip envOk ⟨9⟩ rfl⟩

/-- C4: if any required native class or the dynamic class declaration is
unavailable during the first registration call, setup fails fatally — the
`unwrap` panics instead of returning or degrading gracefully. -/
theorem setup_fatal_on_missing_primitive (env : ObjCEnv) (h : AppHandle)
    (hEnv : env.allOk = false) :
    ∃ msg, setup_termination_handler env h initialState = .error msg := by
  obtain ⟨o, c, n, a, st⟩ := env
  cases o <;> cases c <;> cases n <;> cases a <;> cases st <;>
    first
      | exact ⟨_, rfl⟩
      | simp [ObjCEnv.allOk] at hEnv

/-- Witness for C4: `NSString` unavailable. -/
theorem setup_fatal_on_missing_primitive_witness :
    ObjCEnv.allOk ⟨true, true, true, true, false⟩ = false ∧
    ∃ msg, setup_termination_handler ⟨true, true, true, true, false⟩ ⟨1⟩
      initialState = .error msg :=
  ⟨rfl, setup_fatal_on_missing_primitive ⟨true, true, true, true, false⟩ ⟨1⟩ rfl⟩

/-- C5 counterexample: with handle 7 registered and the execution context
constructed, a panicking cleanup future is neither swallowed nor logged by
this subsystem — the callback does not return normally (the trace ends in an
unwind and contains no `ret`), and the only message ever logged is the debug
line emitted on entry, before cleanup: no failure is logged. -/
theorem cleanup_panic_not_swallowed :
    Ev.ret ∉ terminationTrace envOk ⟨7⟩ true true ∧
    Ev.unwind ∈ terminationTrace envOk ⟨7⟩ true true ∧
    logMessages (terminationTrace envOk ⟨7⟩ true true) =
      ["applicationWillTerminate received, running cleanup..."] :=
  ⟨by decide, by decide, rfl⟩

/-- C5 amended: the collaborator's future yields no error value to this
subsystem, and the callback performs no catching or logging of cleanup
failures.  When the cleanup future settles, the callback returns normally to
the OS; when it panics, the panic propagates out of the callback instead of
being swallowed; in every case the only log message is the debug line
emitted on entry — no failure is logged. -/
theorem cleanup_failure_untouched (env : ObjCEnv) (h : AppHandle)
    (p : Bool) (hEnv : env.allOk = true) :
    logMessages (terminationTrace env h true p) =
      ["applicationWillTerminate received, running cleanup..."] ∧
    (p = false → terminationTrace env h true p =
      [Ev.logDebug "applicationWillTerminate received, running cleanup...",
       Ev.cleanupStart h, Ev.cleanupSettled h, Ev.ret]) ∧
    (p = true → Ev.ret ∉ terminationTrace env h true p ∧
      Ev.unwind ∈ terminationTrace env h true p) := by
  unfold terminationTrace
  rw [setup_initial_ok env h hEnv]
  cases p <;>
    simp [will_terminate, derefToken_registered, logMessages]

/-- Witness for the amended C5: handle 7, panicking cleanup. -/
theorem cleanup_failure_untouched_witness :
    envOk.allOk = true ∧
    (logMessages (terminationTrace envOk ⟨7⟩ true true) =
      ["applicationWillTerminate received, running cleanup..."] ∧
    (true = false → terminationTrace envOk ⟨7⟩ true true =
      [Ev.logDebug "applicationWillTerminate received, running cleanup...",
       Ev.cleanupStart ⟨7⟩, Ev.cleanupSettled ⟨7⟩, Ev.ret]) ∧
    (true = true → Ev.ret ∉ terminationTrace envOk ⟨7⟩ true true ∧
      Ev.unwind ∈ terminationTrace envOk ⟨7⟩ true true)) :=
  ⟨rfl, cleanup_failure_untouched envOk ⟨7⟩ true rfl⟩

/-- C6: once the first registration call has boxed the handle
(`Box::into_raw`, address 0), no operation of the subsystem ever frees it —
across any further sequence of registration calls and termination events the
freed ledger stays empty and the allocation still holds the original handle
at the same address, reachable through the observer's ivar. -/
theorem token_allocation_never_freed (env : ObjCEnv) (h : AppHandle)
    (hEnv : env.allOk = true) (ops : List Op) (s' : ProcState)
    (hrun : runOps env (Op.register h :: ops) initialState = .ok s') :
    s'.freed = [] ∧ (0, h) ∈ s'.heap ∧ derefToken s' = some h := by
  simp only [runOps, setup_initial_ok env h hEnv] at hrun
  rw [runOps_noop env ops _ rfl] at hrun
  injection hrun with hs
  subst hs
  exact ⟨rfl, by simp [registeredState], rfl⟩

/-- Witness for C6: register 3, fire termination, call register again. -/
theorem token_allocation_never_freed_witness :
    envOk.allOk = true ∧
    runOps envOk
      [Op.register ⟨3⟩, Op.terminate true false, Op.register ⟨9⟩]
      initialState = .ok (registeredState ⟨3⟩) ∧
    ((registeredState ⟨3⟩).freed = [] ∧
      (0, (⟨3⟩ : AppHandle)) ∈ (registeredState ⟨3⟩).heap ∧
      derefToken (registeredState ⟨3⟩) = some ⟨3⟩) :=
  ⟨rfl, rfl,
    token_allocation_never_freed envOk ⟨3⟩ rfl
      [Op.terminate true false, Op.register ⟨9⟩] (registeredState ⟨3⟩) rfl⟩

/-- C7: registration performs exactly one `addObserver` subscription — the
created observer, selector `applicationWillTerminate:`, notification name
`NSApplicationWillTerminateNotification`, scoped to the shared application
object rather than a nil/global scope. -/
theorem subscription_single_scoped (env : ObjCEnv) (h : AppHandle)
    (hEnv : env.allOk = true) :
    ∃ s₁ obs, setup_termination_handler env h initialState = .ok s₁ ∧
      s₁.observer = some obs ∧
      s₁.subscriptions =
        [{ observerAddr := obs
           selector := "applicationWillTerminate:"
           name := "NSApplicationWillTerminateNotification"
           object := ObjScope.sharedApp }] :=
  ⟨registeredState h, 1, setup_initial_ok env h hEnv, rfl, rfl⟩

/-- Witness for C7 at handle 6. -/
theorem subscription_single_scoped_witness :
    envOk.allOk = true ∧
    ∃ s₁ obs, setup_termination_handler envOk ⟨6⟩ initialState = .ok s₁ ∧
      s₁.observer = some obs ∧
      s₁.subscriptions =
        [{ observerAddr := obs
           selector := "applicationWillTerminate:"
           name := "NSApplicationWillTerminateNotification"
           object := ObjScope.sharedApp }] :=
  ⟨rfl, subscription_single_scoped envOk ⟨6⟩ rfl⟩

/-- C8: the termination callback contains no process-exit call on any
execution path; and on every path where the cleanup future settles (success,
or errors the collaborator absorbs — `p = false`) or the execution context
fails to construct (`rtOk = false`), it returns control to the OS
normally. -/
theorem callback_no_exit_call (env : ObjCEnv) (h : AppHandle)
    (rtOk p : Bool) (hEnv : env.allOk = true) :
    Ev.processExitCall ∉ terminationTrace env h rtOk p ∧
    (p = false ∨ rtOk = false →
      ∃ t, terminationTrace env h rtOk p = t ++ [Ev.ret]) := by
  unfold terminationTrace
  rw [setup_initial_ok env h hEnv]
  cases rtOk with
  | false =>
    refine ⟨?_, fun _ =>
      ⟨[Ev.logDebug "applicationWillTerminate received, running cleanup..."],
        ?_⟩⟩ <;>
      simp [will_terminate, derefToken_registered]
  | true =>
    cases p with
    | false =>
      refine ⟨?_, fun _ =>
        ⟨[Ev.logDebug "applicationWillTerminate received, running cleanup...",
          Ev.cleanupStart h, Ev.cleanupSettled h], ?_⟩⟩ <;>
        simp [will_terminate, derefToken_registered]
    | true =>
      refine ⟨by simp [will_terminate, derefToken_registered], fun hc => ?_⟩
      rcases hc with hc | hc <;> simp at hc

/-- Witness for C8: runtime constructs, cleanup settles. -/
theorem callback_no_exit_call_witness :
    envOk.allOk = true ∧
    (Ev.processExitCall ∉ terminationTrace envOk ⟨4⟩ true false ∧
    (false = false ∨ true = false →
      ∃ t, terminationTrace envOk ⟨4⟩ true false = t ++ [Ev.ret])) :=
  ⟨rfl, callback_no_exit_call envOk ⟨4⟩ true false rfl⟩

/-- C9: if `Runtime::new` fails inside the termination callback, the cleanup
collaborator is never invoked, the callback returns normally to the OS, and
the condition is not logged — the whole trace is the entry debug line
followed by the return. -/
theorem runtime_failure_skips_cleanup (env : ObjCEnv) (h : AppHandle)
    (p : Bool) (hEnv : env.allOk = true) :
    terminationTrace env h false p =
      [Ev.logDebug "applicationWillTerminate received, running cleanup...",
       Ev.ret] ∧
    cleanupStarts (terminationTrace env h false p) = [] := by
  unfold terminationTrace
  rw [setup_initial_ok env h hEnv]
  simp [will_terminate, derefToken_registered, cleanupStarts]

/-- Witness for C9 at handle 8. -/
theorem runtime_failure_skips_cleanup_witness :
    envOk.allOk = true ∧
    (terminationTrace envOk ⟨8⟩ false false =
      [Ev.logDebug "applicationWillTerminate received, running cleanup...",
       Ev.ret] ∧
    cleanupStarts (terminationTrace envOk ⟨8⟩ false false) = []) :=
  ⟨rfl, runtime_failure_skips_cleanup envOk ⟨8⟩ false rfl⟩

/-- C10: only the first call's handle is ever stored or leaked.  After the
first registration stored `h₁`, a later call with a different handle `h₂`
returns with the state unchanged: `h₂` is not boxed into the heap, the
observer still points at `h₁`'s box, and the callback dereference still
yields `h₁` — `h₂` is simply dropped and never reachable by the callback. -/
theorem later_handles_dropped (env : ObjCEnv) (h₁ h₂ : AppHandle)
    (s₁ : ProcState) (hEnv : env.allOk = true)
    (hreg : setup_termination_handler env h₁ initialState = .ok s₁)
    (hne : h₂ ≠ h₁) :
    setup_termination_handler env h₂ s₁ = .ok s₁ ∧
    (∀ a, (a, h₂) ∉ s₁.heap) ∧
    derefToken s₁ = some h₁ := by
  rw [setup_initial_ok env h₁ hEnv] at hreg
  injection hreg with hs
  subst hs
  refine ⟨setup_noop env h₂ _ rfl, ?_, rfl⟩
  intro a ha
  simp [registeredState] at ha
  exact hne ha.2

/-- Witness for C10: handles 3 then 4. -/
theorem later_handles_dropped_witness :
    envOk.allOk = true ∧
    setup_termination_handler envOk ⟨3⟩ initialState =
      .ok (registeredState ⟨3⟩) ∧
    (⟨4⟩ : AppHandle) ≠ (⟨3⟩ : AppHandle) ∧
    (setup_termination_handler envOk ⟨4⟩ (registeredState ⟨3⟩) =
      .ok (registeredState ⟨3⟩) ∧
    (∀ a, (a, (⟨4⟩ : AppHandle)) ∉ (registeredState ⟨3⟩).heap) ∧
    derefToken (registeredState ⟨3⟩) = some ⟨3⟩) :=
  ⟨rfl, rfl, by decide,
    later_handles_dropped envOk ⟨3⟩ ⟨4⟩ (registeredState ⟨3⟩) rfl rfl
      (by decide)⟩
